import Mathlib

/-!
Verification development for the upload reliability layer of the
transcription-and-upload automation repository.

The Lean definitions below are a shallow embedding of the Python source:

* `src/error_recovery.py`   — `CircuitBreaker`, `RetryConfig`, `RetryManager`,
  the `retry_async` decorator and the per-service retry configurations.
* `src/core/processors/aiwaverider_processor.py` — chunked upload protocol
  (`_upload_large_file_chunked`, `_upload_file_chunks`), remote listing
  (`_get_existing_files`), and the decorated upload wrapper
  (`_upload_to_aiwaverider_drive_async`).
* `src/core/processors/upload_processor.py` — the duplicate-detection gate
  (`_check_database_duplicate`, `_check_duplicate_by_name`,
  `_check_duplicate_by_content`, decision portion of `_upload_video_file`).
* `src/system/new_database.py` and `src/system/queue_processor.py` — the task
  queue (`get_next_task`, `update_task_status`, `Worker._process_task`).

Python exceptions are modelled as values of `PyExc` (class name plus message);
a fallible call is an `Except PyExc` value.  Wall-clock time is an explicit
`Nat` parameter.  Mutable object state is threaded explicitly.
-/

deriving instance DecidableEq for Except

namespace AutoUpload

/-- Python exception value: its class name and message. `src/error_recovery.py`
raises plain `Exception(...)` instances (there is no `CircuitOpenError` class
anywhere in the source), so the breaker-open rejection carries
`cls = "Exception"`. -/
structure PyExc where
  cls : String
  msg : String
deriving DecidableEq, Repr

/-- `CircuitState` enum of `src/error_recovery.py`. -/
inductive CircuitState where
  | CLOSED
  | OPEN
  | HALF_OPEN
deriving DecidableEq, Repr

/-- State of one `CircuitBreaker` object (`src/error_recovery.py`, lines 31-115).
`last_failure_time` starts as Python `None`. -/
structure CircuitBreaker where
  failure_threshold : Nat
  timeout : Nat
  failure_count : Nat
  last_failure_time : Option Nat
  state : CircuitState
  total_requests : Nat
  total_failures : Nat
  total_successes : Nat
deriving DecidableEq, Repr

/-- `CircuitBreaker()` built with the defaults of `src/system/config.py`:
`circuit_breaker_failure_threshold = 5`, `circuit_breaker_timeout = 60`. -/
def defaultCircuitBreaker : CircuitBreaker :=
  { failure_threshold := 5
    timeout := 60
    failure_count := 0
    last_failure_time := none
    state := CircuitState.CLOSED
    total_requests := 0
    total_failures := 0
    total_successes := 0 }

/-- `CircuitBreaker._on_success`: reset `failure_count`, close the breaker,
bump the success counter. -/
def onSuccess (cb : CircuitBreaker) : CircuitBreaker :=
  { cb with
    failure_count := 0
    state := CircuitState.CLOSED
    total_successes := cb.total_successes + 1 }

/-- `CircuitBreaker._on_failure`: bump counters, record the failure time, and
open the breaker once `failure_count` reaches `failure_threshold`. -/
def onFailure (cb : CircuitBreaker) (now : Nat) : CircuitBreaker :=
  let cb2 :=
    { cb with
      failure_count := cb.failure_count + 1
      last_failure_time := some now
      total_failures := cb.total_failures + 1 }
  if cb2.failure_threshold ≤ cb2.failure_count then
    { cb2 with state := CircuitState.OPEN }
  else cb2

/-- The exception raised by `CircuitBreaker.call_async` when the breaker is
OPEN and the timeout has not elapsed: a plain `Exception` whose message names
the wrapped function. -/
def circuitBreakerOpenExc (fname : String) : PyExc :=
  { cls := "Exception", msg := "Circuit breaker is OPEN for " ++ fname }

/-- Result of one `CircuitBreaker.call_async`: the returned-or-raised value,
the breaker's state afterwards, and whether the wrapped function was actually
invoked. -/
structure CallResult (α : Type) where
  result : Except PyExc α
  breaker : CircuitBreaker
  invoked : Bool

/-- `CircuitBreaker.call_async` (`src/error_recovery.py`, lines 70-87).
`op` is the value the wrapped coroutine would produce if invoked now.  All
exceptions used in this repository are `Exception` subclasses and every
breaker is constructed with `expected_exception=Exception`, so a raising op
always runs `_on_failure` and re-raises. -/
def callAsync (cb : CircuitBreaker) (fname : String) (now : Nat)
    (op : Except PyExc α) : CallResult α :=
  let pre : Option CircuitBreaker :=
    if cb.state = CircuitState.OPEN then
      if now - (cb.last_failure_time.getD 0) > cb.timeout then
        some { cb with state := CircuitState.HALF_OPEN }
      else none
    else some cb
  match pre with
  | none => ⟨Except.error (circuitBreakerOpenExc fname), cb, false⟩
  | some cb1 =>
    let cb2 := { cb1 with total_requests := cb1.total_requests + 1 }
    match op with
    | Except.ok a => ⟨Except.ok a, onSuccess cb2, true⟩
    | Except.error e => ⟨Except.error e, onFailure cb2 now, true⟩

/-- `RetryConfig` dataclass.  `retryable e` models
`isinstance(e, config.retryable_exceptions)`; the default classifier
`(Exception,)` matches every exception. -/
structure RetryConfig where
  max_retries : Nat := 3
  base_delay : Rat := 1
  max_delay : Rat := 60
  exponential_base : Rat := 2
  jitter : Bool := true
  retryable : PyExc → Bool := fun _ => true

/-- `RetryConfig()` with all defaults (used by the bare `RetryManager()`). -/
def defaultRetryConfig : RetryConfig := {}

/-- `AIWAVERIDER_RETRY_CONFIG` (`src/error_recovery.py`, lines 233-238). -/
def AIWAVERIDER_RETRY_CONFIG : RetryConfig :=
  { max_retries := 5
    base_delay := 2
    max_delay := 60
    retryable := fun _ => true }

/-- `GOOGLE_API_RETRY_CONFIG` (`src/error_recovery.py`, lines 226-231). -/
def GOOGLE_API_RETRY_CONFIG : RetryConfig :=
  { max_retries := 3
    base_delay := 1
    max_delay := 30
    retryable := fun _ => true }

/-- Outcome of one `RetryManager.retry_async` run: the returned-or-raised
value, the circuit breaker afterwards, how many times the wrapped operation
was actually invoked, and how many attempts were fast-rejected by an OPEN
breaker. -/
structure RetryOutcome (α : Type) where
  result : Except PyExc α
  breaker : CircuitBreaker
  invoked : Nat
  rejectedOpen : Nat

/-- The `for attempt in range(max_retries + 1)` loop of
`RetryManager.retry_async` (`src/error_recovery.py`, lines 148-174).
`op k` is the result of the k-th actual invocation of the wrapped operation;
`times a` is the wall-clock time at loop iteration `a`.  `fuel` counts the
remaining iterations (`fuel = max_retries + 1 - attempt`), so the
`attempt == max_retries` check of the source is `fuel = 1`.  The `fuel = 0`
case is unreachable from `retryAsyncRun`. -/
def retryAsyncGo (cfg : RetryConfig) (fname : String) (op : Nat → Except PyExc α)
    (times : Nat → Nat) :
    Nat → Nat → CircuitBreaker → Nat → Nat → RetryOutcome α
  | _, 0, cb, invoked, rejected =>
      ⟨Except.error { cls := "Exception", msg := "unreachable" }, cb, invoked, rejected⟩
  | attempt, fuel + 1, cb, invoked, rejected =>
    let c := callAsync cb fname (times attempt) (op invoked)
    let invoked2 := if c.invoked then invoked + 1 else invoked
    let rejected2 := if c.invoked then rejected else rejected + 1
    match c.result with
    | Except.ok a => ⟨Except.ok a, c.breaker, invoked2, rejected2⟩
    | Except.error e =>
      if cfg.retryable e = false then ⟨Except.error e, c.breaker, invoked2, rejected2⟩
      else if fuel = 0 then ⟨Except.error e, c.breaker, invoked2, rejected2⟩
      else retryAsyncGo cfg fname op times (attempt + 1) fuel c.breaker invoked2 rejected2

/-- `RetryManager.retry_async` on a given circuit breaker. -/
def retryAsyncRun (cfg : RetryConfig) (fname : String) (op : Nat → Except PyExc α)
    (times : Nat → Nat) (cb : CircuitBreaker) : RetryOutcome α :=
  retryAsyncGo cfg fname op times 0 (cfg.max_retries + 1) cb 0 0

/-- Lookup in the `RetryManager.circuit_breakers` dict. -/
def lookupBreaker : List (String × CircuitBreaker) → String → Option CircuitBreaker
  | [], _ => none
  | (k, v) :: rest, name => if k = name then some v else lookupBreaker rest name

/-- Store (insert or overwrite) in the `RetryManager.circuit_breakers` dict. -/
def storeBreaker : List (String × CircuitBreaker) → String → CircuitBreaker →
    List (String × CircuitBreaker)
  | [], name, cb => [(name, cb)]
  | (k, v) :: rest, name, cb =>
    if k = name then (k, cb) :: rest else (k, v) :: storeBreaker rest name cb

/-- `RetryManager`: a retry config plus the per-service breaker registry. -/
structure RetryManager where
  config : RetryConfig
  circuit_breakers : List (String × CircuitBreaker)

/-- `RetryManager.get_circuit_breaker`: return the breaker registered for
`service_name`, creating a default one on first use. -/
def RetryManager.getCircuitBreaker (m : RetryManager) (service_name : String) :
    CircuitBreaker × RetryManager :=
  match lookupBreaker m.circuit_breakers service_name with
  | some cb => (cb, m)
  | none =>
    (defaultCircuitBreaker,
      { m with circuit_breakers :=
          storeBreaker m.circuit_breakers service_name defaultCircuitBreaker })

/-- `RetryManager.retry_async` including its effect on the manager's breaker
registry (the breaker object is mutated in place in Python; here the final
breaker state is written back under the service name). -/
def RetryManager.runService (m : RetryManager) (service_name fname : String)
    (op : Nat → Except PyExc α) (times : Nat → Nat) :
    RetryOutcome α × RetryManager :=
  let g := m.getCircuitBreaker service_name
  let out := retryAsyncRun g.2.config fname op times g.1
  (out, { g.2 with circuit_breakers := storeBreaker g.2.circuit_breakers service_name out.breaker })

/-- One call of a function decorated with `@retry_async(config, service_name)`
(`src/error_recovery.py`, lines 205-213): the wrapper constructs a brand-new
`RetryManager(config)` — with an empty breaker registry — on every call, runs
`retry_async`, and discards the manager. -/
def retryAsyncDecoratedCall (cfg : RetryConfig) (service_name fname : String)
    (op : Nat → Except PyExc α) (times : Nat → Nat) : RetryOutcome α :=
  (RetryManager.runService { config := cfg, circuit_breakers := [] }
    service_name fname op times).1

example :
    (retryAsyncRun defaultRetryConfig "f"
      (fun _ => (Except.ok 7 : Except PyExc Nat)) (fun _ => 0)
      defaultCircuitBreaker).invoked = 1 := by decide

example :
    (retryAsyncRun defaultRetryConfig "f"
      (fun _ => (Except.error { cls := "Exception", msg := "boom" } : Except PyExc Nat))
      (fun _ => 0) defaultCircuitBreaker).invoked = 4 := by decide

/-! ### Chunked upload protocol (`src/core/processors/aiwaverider_processor.py`) -/

/-- `chunk_size = 5 * 1024 * 1024` of `_upload_large_file_chunked` (line 425). -/
def chunkSizeBytes : Nat := 5 * 1024 * 1024

/-- The `for chunk_number in range(1, total_chunks + 1)` loop of
`_upload_file_chunks` (lines 461-493).  The file is modelled by the number of
bytes still unread: `file.read(chunk_size)` yields `min chunk_size remaining`
bytes, and the loop breaks on an empty read (`if not chunk_data: break`).
`respond k` is whether the HTTP post for chunk `k` returns status 200; each
list element of the returned trace is one actual chunk-upload post, and a
non-200 response aborts with `False`. -/
def uploadFileChunksLoop (chunk_size : Nat) (respond : Nat → Bool) :
    List Nat → Nat → Bool × List Nat
  | [], _ => (true, [])
  | k :: ks, remaining =>
    let data := min chunk_size remaining
    if data = 0 then (true, [])
    else if respond k then
      let r := uploadFileChunksLoop chunk_size respond ks (remaining - data)
      (r.1, k :: r.2)
    else (false, [k])

/-- `_upload_file_chunks` (lines 451-499): iterate chunk numbers
`1 .. total_chunks` over the file. -/
def uploadFileChunks (file_size : Nat) (respond : Nat → Bool) (total_chunks : Nat) :
    Bool × List Nat :=
  uploadFileChunksLoop chunkSizeBytes respond (List.range' 1 total_chunks) file_size

/-- Observable trace of `_upload_large_file_chunked`: overall success, the
chunk-upload posts made (in order), and whether the completion endpoint
(`_complete_chunked_upload`) was called. -/
structure ChunkedUploadTrace where
  success : Bool
  chunksSent : List Nat
  completionCalled : Bool
deriving DecidableEq, Repr

/-- `_upload_large_file_chunked` (lines 417-449): compute
`total_chunks = (file_size + chunk_size - 1) // chunk_size`, upload the chunks
(aborting on the first failure), and only then issue the single completion
call, whose response status is `completeOk`. -/
def uploadLargeFileChunked (file_size : Nat) (respond : Nat → Bool)
    (completeOk : Bool) : ChunkedUploadTrace :=
  let total_chunks := (file_size + chunkSizeBytes - 1) / chunkSizeBytes
  let r := uploadFileChunks file_size respond total_chunks
  if r.1 = false then ⟨false, r.2, false⟩
  else if completeOk = false then ⟨false, r.2, true⟩
  else ⟨true, r.2, true⟩

example :
    (uploadLargeFileChunked (10 * 1024 * 1024) (fun _ => true) true).chunksSent
      = [1, 2] := by decide

/-! ### Duplicate-detection gate (`src/core/processors/upload_processor.py`) -/

/-- A file visible in the Google Drive folder listing. -/
structure DriveFile where
  id : String
  name : String
  description : String
deriving DecidableEq, Repr

/-- `_check_duplicate_by_name` (lines 170-189).  `listing` is the outcome of
the Drive list call for files of this name in the folder; on any exception the
source logs and returns `None` — indistinguishable from "no duplicate". -/
def checkDuplicateByName (listing : Except PyExc (List DriveFile))
    (filename : String) : Option DriveFile :=
  match listing with
  | Except.ok files => (files.filter (fun f => f.name = filename)).head?
  | Except.error _ => none

/-- Whether the second character list starts with the first. -/
def charsStartWith : List Char → List Char → Bool
  | [], _ => true
  | _ :: _, [] => false
  | n :: ns, h :: hs => n = h && charsStartWith ns hs

/-- Whether the haystack contains the needle as a contiguous substring
(Python `needle in description`). -/
def charsContain (needle : List Char) : List Char → Bool
  | [] => charsStartWith needle []
  | h :: hs => charsStartWith needle (h :: hs) || charsContain needle hs

/-- `_check_duplicate_by_content` (lines 191-212): scan the folder listing for
a file whose description contains `hash:{file_hash}`; on any exception the
source logs and returns `None`. -/
def checkDuplicateByContent (listing : Except PyExc (List DriveFile))
    (file_hash : String) : Option DriveFile :=
  match listing with
  | Except.ok files =>
      files.find? (fun f =>
        charsContain ("hash:" ++ file_hash).toList f.description.toList)
  | Except.error _ => none

/-- Row of `video_transcripts` / `upload_tracking` as far as the duplicate
check reads it. -/
structure DbEntry where
  filename : String
  file_hash : String
  upload_status : String
deriving DecidableEq, Repr

/-- `get_video_transcript_by_filename` / `get_upload_tracking_by_filename`
(`src/system/new_database.py`, lines 755-785): `SELECT * WHERE filename = ?`,
no condition on status or hash. -/
def getByFilename (table : List DbEntry) (filename : String) : Option DbEntry :=
  table.find? (fun e => e.filename = filename)

/-- `_check_database_duplicate` (lines 214-247): `exists` is true exactly when
either table holds a row with this filename — the stored `file_hash` and
`upload_status` are never consulted. -/
def checkDatabaseDuplicate (video_transcripts upload_tracking : List DbEntry)
    (filename : String) : Bool :=
  (getByFilename video_transcripts filename).isSome
    || (getByFilename upload_tracking filename).isSome

/-- Entry of the in-memory session `state` dict keyed by normalized path. -/
structure SessionEntry where
  file_hash : String
  upload_status : String
  drive_id : String
deriving DecidableEq, Repr

/-- Decision of the gate in `_upload_video_file` (steps 1-5, lines 254-295). -/
inductive UploadDecision where
  | skipDb
  | skipNameDup
  | skipContentDup
  | skipSession (drive_id : String)
  | upload
deriving DecidableEq, Repr

/-- The duplicate-prevention gate of `_upload_video_file` (lines 266-295):
step 1 database check (by filename only), step 2 Drive name check, step 3
Drive content-hash check, step 4 session-state check (this is the only step
that compares the stored `file_hash` with the current one), else upload. -/
def uploadVideoDecision (video_transcripts upload_tracking : List DbEntry)
    (nameListing contentListing : Except PyExc (List DriveFile))
    (filename current_hash : String) (stateEntry : Option SessionEntry) :
    UploadDecision :=
  if checkDatabaseDuplicate video_transcripts upload_tracking filename then
    UploadDecision.skipDb
  else
    match checkDuplicateByName nameListing filename with
    | some _ => UploadDecision.skipNameDup
    | none =>
      match checkDuplicateByContent contentListing current_hash with
      | some _ => UploadDecision.skipContentDup
      | none =>
        match stateEntry with
        | some e =>
          if e.file_hash = current_hash && e.upload_status = "COMPLETED" then
            UploadDecision.skipSession e.drive_id
          else UploadDecision.upload
        | none => UploadDecision.upload

/-- `_get_fresh_file_list` (`aiwaverider_processor.py`, lines 249-282): on a
200 response return the listed names, on a non-200 response or any exception
log and return the empty set. -/
def getFreshFileList (response : Except PyExc (List String)) : List String :=
  match response with
  | Except.ok names => names
  | Except.error _ => []

/-- `_get_existing_files` (lines 218-247): a valid cache entry wins; otherwise
fetch fresh, where any error collapses to the empty set. -/
def getExistingFiles (cache : Option (List String))
    (response : Except PyExc (List String)) : List String :=
  match cache with
  | some cached => cached
  | none => getFreshFileList response

/-! ### Task queue (`src/system/new_database.py`, `src/system/queue_processor.py`) -/

/-- `TaskStatus` enum of `src/system/queue_processor.py`. -/
inductive TaskStatus where
  | PENDING
  | PROCESSING
  | COMPLETED
  | FAILED
  | RETRYING
deriving DecidableEq, Repr

/-- A row of `processing_queue` together with the `depends_on` ids that
`add_video_processing_pipeline` stores inside `task_data`. -/
structure QTask where
  id : Nat
  task_type : String
  status : TaskStatus
  priority : Int
  created_at : Nat
  retry_count : Nat
  max_retries : Nat
  depends_on : List Nat
deriving DecidableEq, Repr

/-- SQL `ORDER BY priority DESC, created_at ASC`: `a` sorts strictly before
`b`. -/
def taskBefore (a b : QTask) : Bool :=
  b.priority < a.priority || (a.priority = b.priority && a.created_at < b.created_at)

/-- `NewDatabaseManager.get_next_task` with `task_type=None`
(`src/system/new_database.py`, lines 457-481):
`SELECT * FROM processing_queue WHERE status = 'PENDING'
ORDER BY priority DESC, created_at ASC LIMIT 1`.  Note: the query has no
condition whatsoever on `depends_on` or on the status of other tasks. -/
def getNextTask (queue : List QTask) : Option QTask :=
  (queue.filter (fun t => t.status = TaskStatus.PENDING)).foldl
    (fun acc t =>
      match acc with
      | none => some t
      | some best => if taskBefore t best then some t else some best)
    none

/-- `update_task_status` (lines 483-491): set both `status` and `retry_count`
of the row. -/
def updateTaskStatus (queue : List QTask) (id : Nat) (st : TaskStatus)
    (rc : Nat) : List QTask :=
  queue.map (fun t => if t.id = id then { t with status := st, retry_count := rc } else t)

/-- `Worker._process_task` (`src/system/queue_processor.py`, lines 103-134):
immediately mark the task PROCESSING (no dependency check of any kind), run
it, then mark COMPLETED on success, RETRYING with `retry_count + 1` if
`retry_count < max_retries`, else FAILED.  Returns the queue right after the
PROCESSING transition and the final queue.  (The PROCESSING and COMPLETED
updates pass the default `retry_count=0`.) -/
def processTask (queue : List QTask) (task : QTask) (execOk : Bool) :
    List QTask × List QTask :=
  let q1 := updateTaskStatus queue task.id TaskStatus.PROCESSING 0
  if execOk then (q1, updateTaskStatus q1 task.id TaskStatus.COMPLETED 0)
  else if task.retry_count < task.max_retries then
    (q1, updateTaskStatus q1 task.id TaskStatus.RETRYING (task.retry_count + 1))
  else (q1, updateTaskStatus q1 task.id TaskStatus.FAILED task.retry_count)

/-- Status of the task with the given id, as recorded in the queue. -/
def statusOf (queue : List QTask) (id : Nat) : Option TaskStatus :=
  (queue.find? (fun t => t.id = id)).map (fun t => t.status)

/-! ### The decorated AIWaverider upload wrapper -/

/-- Body of `_upload_to_aiwaverider_drive_async`
(`src/core/processors/aiwaverider_processor.py`, lines 329-338): run
`_perform_upload` through the processor's own circuit breaker, and catch
EVERY exception, returning `False` instead of re-raising.  `perform` is the
boolean-or-exception outcome `_perform_upload` would produce. -/
def uploadToAiwaveriderBody (cb : CircuitBreaker) (now : Nat)
    (perform : Except PyExc Bool) : Except PyExc Bool × CircuitBreaker :=
  let c := callAsync cb "_perform_upload" now perform
  match c.result with
  | Except.ok b => (Except.ok b, c.breaker)
  | Except.error _ => (Except.ok false, c.breaker)

/-! ### Claim theorems -/

/-- Pipeline scenario for the dependency claims: task 1 is a download that
ended FAILED, task 2 an upload whose `task_data` carries
`depends_on = [1]` (as written by `add_video_processing_pipeline`). -/
def taskA : QTask :=
  { id := 1, task_type := "download_video", status := TaskStatus.FAILED
    priority := 0, created_at := 0, retry_count := 3, max_retries := 3
    depends_on := [] }

/-- Dependent upload task of the scenario. -/
def taskB : QTask :=
  { id := 2, task_type := "upload_google_drive", status := TaskStatus.PENDING
    priority := 0, created_at := 1, retry_count := 0, max_retries := 3
    depends_on := [1] }

/-- Variant scenario: the dependency (task 3) is still PENDING and the
dependent task 4 has higher priority. -/
def taskA2 : QTask :=
  { id := 3, task_type := "download_video", status := TaskStatus.PENDING
    priority := 0, created_at := 0, retry_count := 0, max_retries := 3
    depends_on := [] }

/-- Higher-priority dependent task of the variant scenario. -/
def taskB2 : QTask :=
  { id := 4, task_type := "upload_google_drive", status := TaskStatus.PENDING
    priority := 5, created_at := 1, retry_count := 0, max_retries := 3
    depends_on := [3] }

/-- C1.  The scheduler has no dependency gating at all: `get_next_task`
selects any PENDING task (its SQL never reads `depends_on`) and
`Worker._process_task` marks it PROCESSING unconditionally.  Concretely:
task 2 depends on task 1 which is FAILED, yet task 2 is selected, enters
PROCESSING, and even completes; and in the variant scenario task 4 enters
PROCESSING while its dependency task 3 is still PENDING.  This contradicts
the claimed invariant (no PROCESSING while a dependency is not COMPLETED,
and FAILED propagation instead of PROCESSING). -/
theorem c1_dependency_gating_missing :
    statusOf [taskA, taskB] 1 = some TaskStatus.FAILED ∧
    taskB.depends_on = [1] ∧
    getNextTask [taskA, taskB] = some taskB ∧
    statusOf (processTask [taskA, taskB] taskB true).1 2 = some TaskStatus.PROCESSING ∧
    statusOf (processTask [taskA, taskB] taskB true).2 2 = some TaskStatus.COMPLETED ∧
    statusOf [taskA2, taskB2] 3 = some TaskStatus.PENDING ∧
    taskB2.depends_on = [3] ∧
    getNextTask [taskA2, taskB2] = some taskB2 ∧
    statusOf (processTask [taskA2, taskB2] taskB2 true).1 4 = some TaskStatus.PROCESSING := by
  decide

/-- Task that fails its first attempt with retry budget left. -/
def taskR : QTask :=
  { id := 5, task_type := "upload_google_drive", status := TaskStatus.PENDING
    priority := 0, created_at := 0, retry_count := 0, max_retries := 3
    depends_on := [] }

/-- Task that fails with its retry budget exhausted. -/
def taskRmax : QTask :=
  { id := 6, task_type := "upload_google_drive", status := TaskStatus.PENDING
    priority := 0, created_at := 0, retry_count := 3, max_retries := 3
    depends_on := [] }

/-- C9.  A failing task with `retry_count < max_retries` is recorded as
RETRYING — but `get_next_task` selects only rows with `status = 'PENDING'`,
so the RETRYING task never re-enters the selection pool (nothing in the
source ever moves RETRYING back to PENDING): after the failure the queue
yields no next task at all.  The terminal half of the claim does hold:
with `retry_count ≥ max_retries` the task becomes FAILED and is never
selected again. -/
theorem c9_retrying_never_reselected :
    getNextTask [taskR] = some taskR ∧
    statusOf (processTask [taskR] taskR false).2 5 = some TaskStatus.RETRYING ∧
    getNextTask (processTask [taskR] taskR false).2 = none ∧
    statusOf (processTask [taskRmax] taskRmax false).2 6 = some TaskStatus.FAILED ∧
    getNextTask (processTask [taskRmax] taskRmax false).2 = none := by
  decide

/-- Database row for the stale-hash scenario of C2. -/
def staleDbEntry : DbEntry :=
  { filename := "video1.mp4", file_hash := "H1", upload_status := "COMPLETED" }

/-- C2 counterexample.  The ledger holds a COMPLETED entry for
`video1.mp4` with content hash `H1`; the current on-disk file hashes to
`H2`.  The gate still returns SKIP (step 1 skips on a filename match alone,
never reading the stored hash), not UPLOAD_REQUIRED as the claim states. -/
theorem c2_counterexample :
    staleDbEntry.upload_status = "COMPLETED" ∧
    staleDbEntry.file_hash ≠ "H2" ∧
    uploadVideoDecision [staleDbEntry] [] (Except.ok []) (Except.ok [])
      "video1.mp4" "H2" none = UploadDecision.skipDb ∧
    UploadDecision.skipDb ≠ UploadDecision.upload := by
  decide

/-- C2 amended.  The gate skips whenever a database row with the same
filename exists, regardless of the stored or current content hash; the
stored-hash-equality condition governs only the session-state check
(step 4), which skips exactly when the stored hash matches the current one
and the entry is COMPLETED, and otherwise falls through to upload. -/
theorem c2_amended_gate (dbv dbu : List DbEntry)
    (nameL contentL : Except PyExc (List DriveFile))
    (fn h : String) (st : Option SessionEntry) (e : SessionEntry) :
    (checkDatabaseDuplicate dbv dbu fn = true →
      uploadVideoDecision dbv dbu nameL contentL fn h st = UploadDecision.skipDb) ∧
    (checkDatabaseDuplicate dbv dbu fn = false →
      checkDuplicateByName nameL fn = none →
      checkDuplicateByContent contentL h = none →
      ((e.file_hash = h ∧ e.upload_status = "COMPLETED" →
        uploadVideoDecision dbv dbu nameL contentL fn h (some e) =
          UploadDecision.skipSession e.drive_id) ∧
       (e.file_hash ≠ h ∨ e.upload_status ≠ "COMPLETED" →
        uploadVideoDecision dbv dbu nameL contentL fn h (some e) =
          UploadDecision.upload))) := by
  constructor
  · intro hdb
    simp [uploadVideoDecision, hdb]
  · intro hdb hname hcontent
    constructor
    · rintro ⟨he1, he2⟩
      simp [uploadVideoDecision, hdb, hname, hcontent, he1, he2]
    · intro hor
      rcases hor with h1 | h1 <;>
        simp [uploadVideoDecision, hdb, hname, hcontent, h1]

/-- C2 amended, witness: gate evaluated at the stale-hash database scenario
and at a session entry whose hash differs from the current file. -/
theorem c2_amended_gate_witness :
    uploadVideoDecision [staleDbEntry] [] (Except.ok []) (Except.ok [])
      "video1.mp4" "H9" none = UploadDecision.skipDb ∧
    uploadVideoDecision [] [] (Except.ok []) (Except.ok [])
      "a.mp4" "H1" (some ⟨"H2", "COMPLETED", "id7"⟩) = UploadDecision.upload := by
  refine ⟨?_, ?_⟩
  · exact (c2_amended_gate [staleDbEntry] [] (Except.ok []) (Except.ok [])
      "video1.mp4" "H9" none ⟨"", "", ""⟩).1 (by decide)
  · exact ((c2_amended_gate [] [] (Except.ok []) (Except.ok [])
      "a.mp4" "H1" (some ⟨"H2", "COMPLETED", "id7"⟩) ⟨"H2", "COMPLETED", "id7"⟩).2
      (by decide) (by decide) (by decide)).2 (Or.inl (by decide))

/-- C5 counterexample.  When the remote name listing or content-hash search
fails with a network error, the gate returns exactly the "no duplicate"
value (`none`, or the empty set for `_get_existing_files`) — the very same
result as a successful empty listing — and the upload decision defaults to
upload.  Nothing is propagated: the result types carry no error at all. -/
theorem c5_counterexample :
    checkDuplicateByName (Except.error ⟨"Exception", "network down"⟩) "a.mp4" = none ∧
    checkDuplicateByName (Except.ok []) "a.mp4" = none ∧
    checkDuplicateByContent (Except.error ⟨"Exception", "network down"⟩) "H1" = none ∧
    checkDuplicateByContent (Except.ok []) "H1" = none ∧
    getExistingFiles none (Except.error ⟨"Exception", "network down"⟩) = [] ∧
    getExistingFiles none (Except.ok []) = [] ∧
    uploadVideoDecision [] [] (Except.error ⟨"Exception", "network down"⟩)
      (Except.error ⟨"Exception", "network down"⟩) "a.mp4" "H1" none =
      UploadDecision.upload := by
  decide

/-- C5 amended.  Every duplicate-detection query catches its own errors:
a failing remote name listing or content-hash search yields `none` and a
failing AIWaverider listing yields the empty set, so (absent a database
duplicate) the decision defaults to upload rather than propagating the
error to the caller. -/
theorem c5_amended_errors_swallowed (e : PyExc) (fn h : String)
    (dbv dbu : List DbEntry)
    (hdb : checkDatabaseDuplicate dbv dbu fn = false) :
    checkDuplicateByName (Except.error e) fn = none ∧
    checkDuplicateByContent (Except.error e) h = none ∧
    getExistingFiles none (Except.error e) = [] ∧
    uploadVideoDecision dbv dbu (Except.error e) (Except.error e) fn h none =
      UploadDecision.upload := by
  refine ⟨rfl, rfl, rfl, ?_⟩
  simp [uploadVideoDecision, hdb, checkDuplicateByName, checkDuplicateByContent]

/-- C5 amended, witness: the swallowing evaluated on a concrete network
error with an empty database. -/
theorem c5_amended_errors_swallowed_witness :
    checkDuplicateByName (Except.error ⟨"Exception", "boom"⟩) "b.mp4" = none ∧
    checkDuplicateByContent (Except.error ⟨"Exception", "boom"⟩) "H7" = none ∧
    getExistingFiles none (Except.error ⟨"Exception", "boom"⟩) = [] ∧
    uploadVideoDecision [] [] (Except.error ⟨"Exception", "boom"⟩)
      (Except.error ⟨"Exception", "boom"⟩) "b.mp4" "H7" none =
      UploadDecision.upload :=
  c5_amended_errors_swallowed ⟨"Exception", "boom"⟩ "b.mp4" "H7" [] [] (by decide)

/-- Generic operation failure used in the breaker scenarios. -/
def opFailExc : PyExc := { cls := "Exception", msg := "boom" }

/-- One failing protected call: the breaker state after
`call_async` raises the wrapped operation's exception. -/
def breakerFailStep (cb : CircuitBreaker) (fname : String) (t : Nat)
    (e : PyExc) : CircuitBreaker :=
  (callAsync cb fname t (Except.error e : Except PyExc Bool)).breaker

/-- Breaker with `failure_threshold = 3` (explicitly constructed, as in the
claim). -/
def cbThreshold3 : CircuitBreaker :=
  { defaultCircuitBreaker with failure_threshold := 3 }

/-- C4 counterexample.  Three consecutive failures do open the breaker and a
fourth call within the timeout is rejected without invoking the operation —
but the rejection is a plain `Exception` (message
"Circuit breaker is OPEN for …"), the very same class as a generic
operation failure; no `CircuitOpenError` kind exists in the source, so the
"distinct error kind" part of the claim is false. -/
theorem c4_counterexample :
    (breakerFailStep (breakerFailStep (breakerFailStep cbThreshold3 "upload" 10 opFailExc)
      "upload" 20 opFailExc) "upload" 30 opFailExc).state = CircuitState.OPEN ∧
    (callAsync (breakerFailStep (breakerFailStep (breakerFailStep cbThreshold3 "upload" 10 opFailExc)
      "upload" 20 opFailExc) "upload" 30 opFailExc) "upload" 40
      (Except.ok true : Except PyExc Bool)).invoked = false ∧
    (callAsync (breakerFailStep (breakerFailStep (breakerFailStep cbThreshold3 "upload" 10 opFailExc)
      "upload" 20 opFailExc) "upload" 30 opFailExc) "upload" 40
      (Except.ok true : Except PyExc Bool)).result =
      Except.error (circuitBreakerOpenExc "upload") ∧
    (circuitBreakerOpenExc "upload").cls = opFailExc.cls ∧
    (circuitBreakerOpenExc "upload").cls ≠ "CircuitOpenError" := by
  decide

/-- Field bookkeeping for one failing protected call through a CLOSED
breaker. -/
theorem breakerFailStep_closed (cb : CircuitBreaker) (fname : String)
    (t : Nat) (e : PyExc) (hst : cb.state = CircuitState.CLOSED) :
    (breakerFailStep cb fname t e).failure_count = cb.failure_count + 1 ∧
    (breakerFailStep cb fname t e).last_failure_time = some t ∧
    (breakerFailStep cb fname t e).failure_threshold = cb.failure_threshold ∧
    (breakerFailStep cb fname t e).timeout = cb.timeout ∧
    (breakerFailStep cb fname t e).state =
      (if cb.failure_threshold ≤ cb.failure_count + 1 then CircuitState.OPEN
       else CircuitState.CLOSED) := by
  simp only [breakerFailStep, callAsync, hst]
  simp [onFailure]
  split <;> simp [hst]

/-- C4 amended.  With `failure_threshold = 3`, three consecutive retryable
failures (at any times, from a CLOSED breaker with zero failures) leave the
breaker OPEN with `last_failure_time` set to the third failure; any further
call while `now - last_failure_time ≤ timeout` is rejected without invoking
the operation, raising the plain `Exception` "Circuit breaker is OPEN for
{fname}" — distinguishable from an operation failure only by its message
text, not by a distinct exception class. -/
theorem c4_amended_breaker_opens (cb : CircuitBreaker) (fname : String)
    (t1 t2 t3 t4 : Nat) (e1 e2 e3 : PyExc) (r : Except PyExc Bool)
    (hth : cb.failure_threshold = 3) (hst : cb.state = CircuitState.CLOSED)
    (hfc : cb.failure_count = 0) (hto : ¬ t4 - t3 > cb.timeout) :
    (breakerFailStep (breakerFailStep (breakerFailStep cb fname t1 e1)
      fname t2 e2) fname t3 e3).state = CircuitState.OPEN ∧
    (callAsync (breakerFailStep (breakerFailStep (breakerFailStep cb fname t1 e1)
      fname t2 e2) fname t3 e3) fname t4 r).invoked = false ∧
    (callAsync (breakerFailStep (breakerFailStep (breakerFailStep cb fname t1 e1)
      fname t2 e2) fname t3 e3) fname t4 r).result =
      Except.error (circuitBreakerOpenExc fname) ∧
    (circuitBreakerOpenExc fname).cls = "Exception" := by
  obtain ⟨h1c, h1l, h1t, h1o, h1s⟩ := breakerFailStep_closed cb fname t1 e1 hst
  rw [hth, hfc] at h1s
  simp only [show ¬ (3 ≤ 0 + 1) by omega, if_false] at h1s
  obtain ⟨h2c, h2l, h2t, h2o, h2s⟩ :=
    breakerFailStep_closed (breakerFailStep cb fname t1 e1) fname t2 e2 h1s
  rw [h1c, hfc, h1t, hth] at h2s
  simp only [show ¬ (3 ≤ 0 + 1 + 1) by omega, if_false] at h2s
  obtain ⟨h3c, h3l, h3t, h3o, h3s⟩ :=
    breakerFailStep_closed (breakerFailStep (breakerFailStep cb fname t1 e1) fname t2 e2)
      fname t3 e3 h2s
  rw [h2c, h1c, hfc, h2t, h1t, hth] at h3s
  simp only [show (3 ≤ 0 + 1 + 1 + 1) by omega, if_true] at h3s
  refine ⟨h3s, ?_, ?_, rfl⟩ <;>
  · simp only [callAsync, h3s, h3l, h3o, h2o, h1o, Option.getD_some]
    simp [hto]

/-- C4 amended, witness: the three-failure scenario at threshold 3 with the
fourth call 10 seconds after the last failure (timeout 60). -/
theorem c4_amended_breaker_opens_witness :
    (breakerFailStep (breakerFailStep (breakerFailStep cbThreshold3 "up" 100 opFailExc)
      "up" 110 opFailExc) "up" 120 opFailExc).state = CircuitState.OPEN ∧
    (callAsync (breakerFailStep (breakerFailStep (breakerFailStep cbThreshold3 "up" 100 opFailExc)
      "up" 110 opFailExc) "up" 120 opFailExc) "up" 130
      (Except.ok true : Except PyExc Bool)).invoked = false ∧
    (callAsync (breakerFailStep (breakerFailStep (breakerFailStep cbThreshold3 "up" 100 opFailExc)
      "up" 110 opFailExc) "up" 120 opFailExc) "up" 130
      (Except.ok true : Except PyExc Bool)).result =
      Except.error (circuitBreakerOpenExc "up") ∧
    (circuitBreakerOpenExc "up").cls = "Exception" :=
  c4_amended_breaker_opens cbThreshold3 "up" 100 110 120 130 opFailExc opFailExc opFailExc
    (Except.ok true) (by decide) (by decide) (by decide) (by decide)

/-- Attempt accounting of the retry loop: every loop pass increments exactly
one of the two counters, so their total growth is bounded by the fuel. -/
theorem retryAsyncGo_budget (cfg : RetryConfig) (fname : String)
    (op : Nat → Except PyExc α) (times : Nat → Nat) :
    ∀ (fuel attempt : Nat) (cb : CircuitBreaker) (invoked rejected : Nat),
      (retryAsyncGo cfg fname op times attempt fuel cb invoked rejected).invoked +
        (retryAsyncGo cfg fname op times attempt fuel cb invoked rejected).rejectedOpen ≤
        invoked + rejected + fuel := by
  intro fuel
  induction fuel with
  | zero =>
    intro attempt cb invoked rejected
    simp [retryAsyncGo]
  | succ fuel ih =>
    intro attempt cb invoked rejected
    simp only [retryAsyncGo]
    cases hres : (callAsync cb fname (times attempt) (op invoked)).result with
    | ok a =>
      cases hinv : (callAsync cb fname (times attempt) (op invoked)).invoked <;>
        (simp [hres, hinv]; omega)
    | error e =>
      cases hinv : (callAsync cb fname (times attempt) (op invoked)).invoked with
      | false =>
        cases hr : cfg.retryable e with
        | false =>
          simp [hres, hinv, hr]; omega
        | true =>
          by_cases hf : fuel = 0
          · subst hf
            simp [hres, hinv, hr]; omega
          · simp [hres, hinv, hr, hf]
            have hih := ih (attempt + 1)
              ((callAsync cb fname (times attempt) (op invoked)).breaker) invoked (rejected + 1)
            omega
      | true =>
        cases hr : cfg.retryable e with
        | false =>
          simp [hres, hinv, hr]; omega
        | true =>
          by_cases hf : fuel = 0
          · subst hf
            simp [hres, hinv, hr]; omega
          · simp [hres, hinv, hr, hf]
            have hih := ih (attempt + 1)
              ((callAsync cb fname (times attempt) (op invoked)).breaker) (invoked + 1) rejected
            omega

/-- C3 counterexample.  Default config (`max_retries = 3`, every exception
retryable).  The breaker starts OPEN with `last_failure_time = 100` and
`timeout = 60`; the loop runs at time 110 (attempt 0, fast-rejected) and at
time 200 afterwards.  The OPEN rejection is caught by the retry loop as an
ordinary retryable exception and consumes attempt 0, so the operation is
invoked only 3 times — not `max_retries + 1 = 4` as the claim requires —
before the run fails exhausted. -/
theorem c3_counterexample :
    (retryAsyncRun defaultRetryConfig "op"
      (fun _ => (Except.error ⟨"Exception", "boom"⟩ : Except PyExc Nat))
      (fun a => if a = 0 then 110 else 200)
      { defaultCircuitBreaker with
        state := CircuitState.OPEN, last_failure_time := some 100 }).rejectedOpen = 1 ∧
    (retryAsyncRun defaultRetryConfig "op"
      (fun _ => (Except.error ⟨"Exception", "boom"⟩ : Except PyExc Nat))
      (fun a => if a = 0 then 110 else 200)
      { defaultCircuitBreaker with
        state := CircuitState.OPEN, last_failure_time := some 100 }).invoked = 3 ∧
    (retryAsyncRun defaultRetryConfig "op"
      (fun _ => (Except.error ⟨"Exception", "boom"⟩ : Except PyExc Nat))
      (fun a => if a = 0 then 110 else 200)
      { defaultCircuitBreaker with
        state := CircuitState.OPEN, last_failure_time := some 100 }).invoked ≠
      defaultRetryConfig.max_retries + 1 ∧
    (retryAsyncRun defaultRetryConfig "op"
      (fun _ => (Except.error ⟨"Exception", "boom"⟩ : Except PyExc Nat))
      (fun a => if a = 0 then 110 else 200)
      { defaultCircuitBreaker with
        state := CircuitState.OPEN, last_failure_time := some 100 }).result =
      Except.error ⟨"Exception", "boom"⟩ := by
  decide

/-- C3 amended.  OPEN-breaker fast rejections raise a plain retryable
`Exception` that the loop catches like any failure, so they DO consume
retry attempts: actual invocations plus OPEN rejections never exceed
`max_retries + 1`, and any rejection strictly reduces the invocations that
remain available. -/
theorem c3_amended_rejections_consume (cfg : RetryConfig) (fname : String)
    (op : Nat → Except PyExc α) (times : Nat → Nat) (cb : CircuitBreaker) :
    (retryAsyncRun cfg fname op times cb).invoked +
      (retryAsyncRun cfg fname op times cb).rejectedOpen ≤ cfg.max_retries + 1 ∧
    (1 ≤ (retryAsyncRun cfg fname op times cb).rejectedOpen →
      (retryAsyncRun cfg fname op times cb).invoked ≤ cfg.max_retries) := by
  have h := retryAsyncGo_budget cfg fname op times (cfg.max_retries + 1) 0 cb 0 0
  constructor
  · simpa [retryAsyncRun] using h
  · intro hrej
    simp only [retryAsyncRun] at *
    omega

/-- C3 amended, witness: with the breaker permanently OPEN (time frozen at
110, failure at 100, timeout 60) all four attempts of the default config are
fast rejections and zero invocations remain. -/
theorem c3_amended_rejections_consume_witness :
    (retryAsyncRun defaultRetryConfig "op"
      (fun _ => (Except.error ⟨"Exception", "boom"⟩ : Except PyExc Nat))
      (fun _ => 110)
      { defaultCircuitBreaker with
        state := CircuitState.OPEN, last_failure_time := some 100 }).invoked +
      (retryAsyncRun defaultRetryConfig "op"
        (fun _ => (Except.error ⟨"Exception", "boom"⟩ : Except PyExc Nat))
        (fun _ => 110)
        { defaultCircuitBreaker with
          state := CircuitState.OPEN, last_failure_time := some 100 }).rejectedOpen ≤
      defaultRetryConfig.max_retries + 1 ∧
    (retryAsyncRun defaultRetryConfig "op"
      (fun _ => (Except.error ⟨"Exception", "boom"⟩ : Except PyExc Nat))
      (fun _ => 110)
      { defaultCircuitBreaker with
        state := CircuitState.OPEN, last_failure_time := some 100 }).invoked ≤
      defaultRetryConfig.max_retries := by
  have h := c3_amended_rejections_consume defaultRetryConfig "op"
    (fun _ => (Except.error ⟨"Exception", "boom"⟩ : Except PyExc Nat))
    (fun _ => 110)
    { defaultCircuitBreaker with
      state := CircuitState.OPEN, last_failure_time := some 100 }
  exact ⟨h.1, h.2 (by decide)⟩

/-- The chunk trace is a prefix of the chunk-number list handed to the loop:
the loop either consumes the head or stops. -/
theorem uploadFileChunksLoop_sent_front (cs : Nat) (respond : Nat → Bool) :
    ∀ (ks : List Nat) (rem : Nat),
      ∃ rest, ks = (uploadFileChunksLoop cs respond ks rem).2 ++ rest := by
  intro ks
  induction ks with
  | nil => intro rem; exact ⟨[], rfl⟩
  | cons k ks ih =>
    intro rem
    simp only [uploadFileChunksLoop]
    by_cases h0 : min cs rem = 0
    · exact ⟨k :: ks, by simp [h0]⟩
    · by_cases hk : respond k
      · obtain ⟨rest, hrest⟩ := ih (rem - min cs rem)
        refine ⟨rest, ?_⟩
        simp only [h0, if_false, hk, if_true]
        simpa using hrest
      · exact ⟨ks, by simp [h0, hk]⟩

/-- If a chunk whose send failed appears in the trace, the chunk phase
reports failure. -/
theorem uploadFileChunksLoop_mem_fail (cs : Nat) (respond : Nat → Bool) :
    ∀ (ks : List Nat) (rem k : Nat),
      k ∈ (uploadFileChunksLoop cs respond ks rem).2 → respond k = false →
      (uploadFileChunksLoop cs respond ks rem).1 = false := by
  intro ks
  induction ks with
  | nil => intro rem k hk; simp [uploadFileChunksLoop] at hk
  | cons k2 ks ih =>
    intro rem k hk hkr
    simp only [uploadFileChunksLoop] at hk ⊢
    by_cases h0 : min cs rem = 0
    · simp [h0] at hk
    · by_cases hk2 : respond k2
      · simp only [h0, if_false, hk2, if_true] at hk ⊢
        simp at hk
        rcases hk with rfl | hk
        · rw [hkr] at hk2; exact absurd hk2 (by simp)
        · exact ih (rem - min cs rem) k hk hkr
      · simp [h0, hk2]

/-- The chunk trace of `_upload_large_file_chunked` is the chunk-phase
trace, in every branch. -/
theorem uploadLargeFileChunked_chunksSent (fs : Nat) (respond : Nat → Bool)
    (completeOk : Bool) :
    (uploadLargeFileChunked fs respond completeOk).chunksSent =
      (uploadFileChunks fs respond ((fs + chunkSizeBytes - 1) / chunkSizeBytes)).2 := by
  cases hr : uploadFileChunks fs respond ((fs + chunkSizeBytes - 1) / chunkSizeBytes) with
  | mk b sent =>
    cases b <;> cases completeOk <;> simp [uploadLargeFileChunked, hr]

/-- A failing chunk phase aborts: no completion call, no success. -/
theorem uploadLargeFileChunked_abort (fs : Nat) (respond : Nat → Bool)
    (completeOk : Bool)
    (h : (uploadFileChunks fs respond ((fs + chunkSizeBytes - 1) / chunkSizeBytes)).1 = false) :
    (uploadLargeFileChunked fs respond completeOk).success = false ∧
    (uploadLargeFileChunked fs respond completeOk).completionCalled = false := by
  cases hr : uploadFileChunks fs respond ((fs + chunkSizeBytes - 1) / chunkSizeBytes) with
  | mk b sent =>
    rw [hr] at h
    cases b
    · simp [uploadLargeFileChunked, hr]
    · simp at h

/-- C6 counterexample.  A 10 MB file makes two chunks; the send of chunk 1
fails once.  The whole upload aborts with chunk 1 posted exactly once — far
from the `max_retries + 1 = 6` attempts its own RetryManager invocation
would perform under the AIWaverider config — so chunk sends are not
individually retry-wrapped (each is a single `session.post`). -/
theorem c6_counterexample :
    (uploadLargeFileChunked (10 * 1024 * 1024) (fun k => decide (k ≠ 1)) true).success = false ∧
    (uploadLargeFileChunked (10 * 1024 * 1024) (fun k => decide (k ≠ 1)) true).completionCalled = false ∧
    (uploadLargeFileChunked (10 * 1024 * 1024) (fun k => decide (k ≠ 1)) true).chunksSent = [1] ∧
    ((uploadLargeFileChunked (10 * 1024 * 1024) (fun k => decide (k ≠ 1)) true).chunksSent.count 1) = 1 ∧
    ¬ AIWAVERIDER_RETRY_CONFIG.max_retries + 1 ≤
      ((uploadLargeFileChunked (10 * 1024 * 1024) (fun k => decide (k ≠ 1)) true).chunksSent.count 1) := by
  decide

/-- C6 amended.  Each chunk is posted at most once (the trace of chunk
sends has no duplicates — there is no per-chunk RetryManager), and if any
posted chunk's send failed, the entire chunked upload aborts with no
completion call and no success. -/
theorem c6_amended_single_send_abort (file_size : Nat) (respond : Nat → Bool)
    (completeOk : Bool) :
    (uploadLargeFileChunked file_size respond completeOk).chunksSent.Nodup ∧
    (∀ k, k ∈ (uploadLargeFileChunked file_size respond completeOk).chunksSent →
      respond k = false →
      (uploadLargeFileChunked file_size respond completeOk).success = false ∧
      (uploadLargeFileChunked file_size respond completeOk).completionCalled = false) := by
  constructor
  · rw [uploadLargeFileChunked_chunksSent]
    obtain ⟨rest, hrest⟩ := uploadFileChunksLoop_sent_front chunkSizeBytes respond
      (List.range' 1 ((file_size + chunkSizeBytes - 1) / chunkSizeBytes)) file_size
    have hsub : ((uploadFileChunks file_size respond
        ((file_size + chunkSizeBytes - 1) / chunkSizeBytes)).2).Sublist
        (List.range' 1 ((file_size + chunkSizeBytes - 1) / chunkSizeBytes)) := by
      rw [hrest]
      exact List.sublist_append_left _ _
    exact List.Nodup.sublist hsub (List.nodup_range' _ _)
  · intro k hk hkr
    rw [uploadLargeFileChunked_chunksSent] at hk
    exact uploadLargeFileChunked_abort file_size respond completeOk
      (uploadFileChunksLoop_mem_fail chunkSizeBytes respond _ file_size k hk hkr)

/-- C6 amended, witness: the 10 MB two-chunk scenario with chunk 1 failing. -/
theorem c6_amended_single_send_abort_witness :
    (uploadLargeFileChunked (10 * 1024 * 1024) (fun k => decide (1 < k)) true).chunksSent.Nodup ∧
    (uploadLargeFileChunked (10 * 1024 * 1024) (fun k => decide (1 < k)) true).success = false ∧
    (uploadLargeFileChunked (10 * 1024 * 1024) (fun k => decide (1 < k)) true).completionCalled = false := by
  have h := c6_amended_single_send_abort (10 * 1024 * 1024) (fun k => decide (1 < k)) true
  have h2 := h.2 1 (by decide) (by decide)
  exact ⟨h.1, h2.1, h2.2⟩

/-- With every chunk post succeeding, the loop consumes exactly the chunk
numbers it is given, provided their count is the ceiling division of the
remaining bytes by the chunk size. -/
theorem uploadFileChunksLoop_all_ok (respond : Nat → Bool)
    (hall : ∀ k, respond k = true) :
    ∀ (n s rem : Nat), 0 < rem →
      n = (rem + chunkSizeBytes - 1) / chunkSizeBytes →
      uploadFileChunksLoop chunkSizeBytes respond (List.range' s n) rem =
        (true, List.range' s n) := by
  have hcs : chunkSizeBytes = 5242880 := rfl
  intro n
  induction n with
  | zero =>
    intro s rem hrem hn
    exfalso
    rw [hcs] at hn
    omega
  | succ n ih =>
    intro s rem hrem hn
    have hrs : List.range' s (n + 1) = s :: List.range' (s + 1) n := rfl
    rw [hrs]
    simp only [uploadFileChunksLoop]
    have hd0 : ¬ min chunkSizeBytes rem = 0 := by rw [hcs]; omega
    by_cases hle : rem ≤ chunkSizeBytes
    · have hn0 : n = 0 := by rw [hcs] at hn hle; omega
      subst hn0
      have hmin : min chunkSizeBytes rem = rem := by rw [hcs] at hle ⊢; omega
      simp [hd0, hall s, hmin, uploadFileChunksLoop]
      omega
    · have hmin : min chunkSizeBytes rem = chunkSizeBytes := by
        rw [hcs] at hle ⊢; omega
      have hrem2 : 0 < rem - chunkSizeBytes := by rw [hcs] at hle ⊢; omega
      have hn2 : n = (rem - chunkSizeBytes + chunkSizeBytes - 1) / chunkSizeBytes := by
        rw [hcs] at hn hle ⊢; omega
      rw [hmin]
      rw [ih (s + 1) (rem - chunkSizeBytes) hrem2 hn2]
      simp [hd0, hall s]
      rw [hcs]
      omega

/-- C7.  For every positive file size on the chunked path with all chunk
posts succeeding, the trace of chunk posts is exactly `[1, …, total_chunks]`
(so there are `total_chunks` posts in strictly increasing index order), and
`total_chunks = (file_size + chunk_size - 1) / chunk_size` is the ceiling of
`file_size / chunk_size`: the last two conjuncts are precisely the ceiling
characterisation. -/
theorem c7_chunk_math (file_size : Nat) (respond : Nat → Bool) (completeOk : Bool)
    (hpos : 0 < file_size) (hall : ∀ k, respond k = true) :
    (uploadLargeFileChunked file_size respond completeOk).chunksSent =
      List.range' 1 ((file_size + chunkSizeBytes - 1) / chunkSizeBytes) ∧
    (uploadLargeFileChunked file_size respond completeOk).chunksSent.length =
      (file_size + chunkSizeBytes - 1) / chunkSizeBytes ∧
    List.Pairwise (fun a b => a < b)
      (uploadLargeFileChunked file_size respond completeOk).chunksSent ∧
    chunkSizeBytes * ((file_size + chunkSizeBytes - 1) / chunkSizeBytes - 1) < file_size ∧
    file_size ≤ chunkSizeBytes * ((file_size + chunkSizeBytes - 1) / chunkSizeBytes) := by
  have hsent : (uploadLargeFileChunked file_size respond completeOk).chunksSent =
      List.range' 1 ((file_size + chunkSizeBytes - 1) / chunkSizeBytes) := by
    rw [uploadLargeFileChunked_chunksSent]
    unfold uploadFileChunks
    rw [uploadFileChunksLoop_all_ok respond hall _ 1 file_size hpos rfl]
  have hcs : chunkSizeBytes = 5242880 := rfl
  refine ⟨hsent, ?_, ?_, ?_, ?_⟩
  · rw [hsent, List.length_range']
  · rw [hsent]
    exact List.pairwise_lt_range' _ _
  · rw [hcs]
    omega
  · rw [hcs]
    omega

/-- C7, witness: the four file sizes of the spec (1 byte, chunk_size,
chunk_size + 1, 10·chunk_size) give chunk traces [1], [1], [1, 2] and ten
posts respectively. -/
theorem c7_chunk_math_witness :
    (uploadLargeFileChunked 1 (fun _ => true) true).chunksSent = [1] ∧
    (uploadLargeFileChunked chunkSizeBytes (fun _ => true) true).chunksSent = [1] ∧
    (uploadLargeFileChunked (chunkSizeBytes + 1) (fun _ => true) true).chunksSent = [1, 2] ∧
    (uploadLargeFileChunked (10 * chunkSizeBytes) (fun _ => true) true).chunksSent.length = 10 := by
  have h1 := c7_chunk_math 1 (fun _ => true) true (by decide) (fun _ => rfl)
  have h2 := c7_chunk_math chunkSizeBytes (fun _ => true) true (by decide) (fun _ => rfl)
  have h3 := c7_chunk_math (chunkSizeBytes + 1) (fun _ => true) true (by decide) (fun _ => rfl)
  have h4 := c7_chunk_math (10 * chunkSizeBytes) (fun _ => true) true (by decide) (fun _ => rfl)
  refine ⟨?_, ?_, ?_, ?_⟩
  · rw [h1.1]; decide
  · rw [h2.1]; decide
  · rw [h3.1]; decide
  · rw [h4.2.1]; decide

/-- Lookup after storing under the same name finds the stored breaker. -/
theorem lookupBreaker_store_self :
    ∀ (reg : List (String × CircuitBreaker)) (n : String) (cb : CircuitBreaker),
      lookupBreaker (storeBreaker reg n cb) n = some cb := by
  intro reg
  induction reg with
  | nil => intro n cb; simp [storeBreaker, lookupBreaker]
  | cons p rest ih =>
    intro n cb
    obtain ⟨k, v⟩ := p
    by_cases hk : k = n
    · subst hk
      simp [storeBreaker, lookupBreaker]
    · simp [storeBreaker, lookupBreaker, hk, ih]

/-- Storing under one name leaves every other name's entry unchanged. -/
theorem lookupBreaker_store_other :
    ∀ (reg : List (String × CircuitBreaker)) (n1 n2 : String) (cb : CircuitBreaker),
      n1 ≠ n2 →
      lookupBreaker (storeBreaker reg n1 cb) n2 = lookupBreaker reg n2 := by
  intro reg
  induction reg with
  | nil =>
    intro n1 n2 cb h
    simp [storeBreaker, lookupBreaker, h]
  | cons p rest ih =>
    intro n1 n2 cb h
    obtain ⟨k, v⟩ := p
    by_cases hk : k = n1
    · subst hk
      simp [storeBreaker, lookupBreaker, h]
    · simp only [storeBreaker, if_neg hk, lookupBreaker]
      by_cases hk2 : k = n2
      · simp [hk2]
      · simp [hk2, ih _ _ _ h]

/-- The decorator's per-call `RetryManager(config)` always resolves to a
fresh default breaker: a decorated call is one plain retry run from
`defaultCircuitBreaker`. -/
theorem retryAsyncDecoratedCall_eq (cfg : RetryConfig) (sname fname : String)
    (op : Nat → Except PyExc α) (times : Nat → Nat) :
    retryAsyncDecoratedCall cfg sname fname op times =
      retryAsyncRun cfg fname op times defaultCircuitBreaker := rfl

/-- C8 counterexample.  First decorated call (AIWaverider config, always
failing, all at time 0): its internal breaker ends OPEN with 5 failures —
and is then discarded with the per-call `RetryManager`.  A second decorated
call one second later still invokes its operation (a fresh CLOSED breaker),
whereas threading the SAME manager through both calls would fast-reject the
second call entirely (0 invocations).  So breaker state does not persist
across retry-managed executions of the same backend name. -/
theorem c8_counterexample :
    (retryAsyncDecoratedCall AIWAVERIDER_RETRY_CONFIG "aiwaverider" "upload"
      (fun _ => (Except.error ⟨"Exception", "boom"⟩ : Except PyExc Nat))
      (fun _ => 0)).breaker.state = CircuitState.OPEN ∧
    (retryAsyncDecoratedCall AIWAVERIDER_RETRY_CONFIG "aiwaverider" "upload"
      (fun _ => (Except.error ⟨"Exception", "boom"⟩ : Except PyExc Nat))
      (fun _ => 0)).breaker.failure_count = 5 ∧
    (retryAsyncDecoratedCall AIWAVERIDER_RETRY_CONFIG "aiwaverider" "upload"
      (fun _ => (Except.ok 7 : Except PyExc Nat)) (fun _ => 1)).invoked = 1 ∧
    (retryAsyncDecoratedCall AIWAVERIDER_RETRY_CONFIG "aiwaverider" "upload"
      (fun _ => (Except.ok 7 : Except PyExc Nat)) (fun _ => 1)).result = Except.ok 7 ∧
    ((RetryManager.runService
        ((RetryManager.runService
          { config := AIWAVERIDER_RETRY_CONFIG, circuit_breakers := [] }
          "aiwaverider" "upload"
          (fun _ => (Except.error ⟨"Exception", "boom"⟩ : Except PyExc Nat))
          (fun _ => 0)).2)
        "aiwaverider" "upload"
        (fun _ => (Except.ok 7 : Except PyExc Nat)) (fun _ => 1)).1).invoked = 0 ∧
    (1 : Nat) ≠ 0 := by
  decide

/-- C8 amended.  Within a single `RetryManager` the registry is a genuine
per-name map: a run stores its final breaker under the service name, and
storing under one name never touches a different name's entry (distinct
backends never share a breaker entry).  But a function decorated with
`@retry_async` builds a brand-new `RetryManager` — hence a fresh default
breaker — on every call, so no breaker state persists across decorated
calls. -/
theorem c8_amended_registry (α : Type) :
    (∀ (m : RetryManager) (sname fname : String) (op : Nat → Except PyExc α)
        (times : Nat → Nat),
      lookupBreaker ((m.runService sname fname op times).2).circuit_breakers sname =
        some ((m.runService sname fname op times).1).breaker) ∧
    (∀ (reg : List (String × CircuitBreaker)) (n1 n2 : String) (cb : CircuitBreaker),
      n1 ≠ n2 →
      lookupBreaker (storeBreaker reg n1 cb) n2 = lookupBreaker reg n2) ∧
    (∀ (cfg : RetryConfig) (sname fname : String) (op : Nat → Except PyExc α)
        (times : Nat → Nat),
      retryAsyncDecoratedCall cfg sname fname op times =
        retryAsyncRun cfg fname op times defaultCircuitBreaker) := by
  refine ⟨?_, ?_, ?_⟩
  · intro m sname fname op times
    simp only [RetryManager.runService]
    exact lookupBreaker_store_self _ _ _
  · intro reg n1 n2 cb h
    exact lookupBreaker_store_other reg n1 n2 cb h
  · intro cfg sname fname op times
    rfl

/-- C8 amended, witness: registry facts evaluated at the two backend names
of the source and one concrete decorated call. -/
theorem c8_amended_registry_witness :
    lookupBreaker (storeBreaker [] "google_drive" defaultCircuitBreaker) "aiwaverider" =
      lookupBreaker [] "aiwaverider" ∧
    retryAsyncDecoratedCall AIWAVERIDER_RETRY_CONFIG "aiwaverider" "upload"
      (fun _ => (Except.ok 3 : Except PyExc Nat)) (fun _ => 0) =
      retryAsyncRun AIWAVERIDER_RETRY_CONFIG "upload"
        (fun _ => (Except.ok 3 : Except PyExc Nat)) (fun _ => 0) defaultCircuitBreaker ∧
    lookupBreaker ((RetryManager.runService
        { config := AIWAVERIDER_RETRY_CONFIG, circuit_breakers := [] }
        "aiwaverider" "upload" (fun _ => (Except.ok 3 : Except PyExc Nat))
        (fun _ => 0)).2).circuit_breakers "aiwaverider" =
      some ((RetryManager.runService
        { config := AIWAVERIDER_RETRY_CONFIG, circuit_breakers := [] }
        "aiwaverider" "upload" (fun _ => (Except.ok 3 : Except PyExc Nat))
        (fun _ => 0)).1).breaker := by
  refine ⟨?_, ?_, ?_⟩
  · exact (c8_amended_registry Nat).2.1 [] "google_drive" "aiwaverider"
      defaultCircuitBreaker (by decide)
  · exact (c8_amended_registry Nat).2.2 AIWAVERIDER_RETRY_CONFIG "aiwaverider" "upload"
      (fun _ => (Except.ok 3 : Except PyExc Nat)) (fun _ => 0)
  · exact (c8_amended_registry Nat).1
      { config := AIWAVERIDER_RETRY_CONFIG, circuit_breakers := [] }
      "aiwaverider" "upload" (fun _ => (Except.ok 3 : Except PyExc Nat)) (fun _ => 0)

/-- The wrapper body never raises: its try/except turns every outcome into
a plain boolean return. -/
theorem uploadToAiwaveriderBody_ok (cb : CircuitBreaker) (now : Nat)
    (perform : Except PyExc Bool) :
    ∃ b, (uploadToAiwaveriderBody cb now perform).1 = Except.ok b := by
  unfold uploadToAiwaveriderBody
  cases h : (callAsync cb "_perform_upload" now perform).result with
  | ok b => exact ⟨b, by simp [h]⟩
  | error e => exact ⟨false, by simp [h]⟩

/-- A failing `_perform_upload` makes the wrapper return `False` (whether
the processor breaker rejects it or lets it run and re-raise). -/
theorem uploadToAiwaveriderBody_error (cb : CircuitBreaker) (now : Nat) (e : PyExc) :
    (uploadToAiwaveriderBody cb now (Except.error e)).1 = Except.ok false := by
  unfold uploadToAiwaveriderBody callAsync
  by_cases h : cb.state = CircuitState.OPEN
  · by_cases h2 : now - cb.last_failure_time.getD 0 > cb.timeout
    · simp [h, h2]
    · simp [h, h2]
  · simp [h]

/-- A first attempt that returns normally ends the retry loop at once. -/
theorem retryAsyncRun_ok_first (cfg : RetryConfig) (fname : String)
    (op : Nat → Except PyExc α) (times : Nat → Nat) (cb : CircuitBreaker)
    (hst : ¬ cb.state = CircuitState.OPEN) (b : α) (hb : op 0 = Except.ok b) :
    retryAsyncRun cfg fname op times cb =
      ⟨Except.ok b, onSuccess { cb with total_requests := cb.total_requests + 1 }, 1, 0⟩ := by
  unfold retryAsyncRun
  simp only [retryAsyncGo]
  simp [callAsync, hst, hb]

/-- C10.  `_upload_to_aiwaverider_drive_async` catches every exception and
returns `False`, so its `@retry_async(AIWAVERIDER_RETRY_CONFIG)` decorator
sees a normal return on the very first attempt: exactly one invocation ever
happens, no OPEN rejection, the decorated result is just the body's result —
and when `_perform_upload` fails, that result is `ok false`, so the 5-retry
budget is never exercised and the failure surfaces only as a boolean. -/
theorem c10_swallowed_failure_no_retries (cb : CircuitBreaker) (times : Nat → Nat)
    (perform : Nat → Except PyExc Bool) :
    (retryAsyncDecoratedCall AIWAVERIDER_RETRY_CONFIG "aiwaverider"
      "_upload_to_aiwaverider_drive_async"
      (fun k => (uploadToAiwaveriderBody cb (times k) (perform k)).1) times).invoked = 1 ∧
    (retryAsyncDecoratedCall AIWAVERIDER_RETRY_CONFIG "aiwaverider"
      "_upload_to_aiwaverider_drive_async"
      (fun k => (uploadToAiwaveriderBody cb (times k) (perform k)).1) times).rejectedOpen = 0 ∧
    (retryAsyncDecoratedCall AIWAVERIDER_RETRY_CONFIG "aiwaverider"
      "_upload_to_aiwaverider_drive_async"
      (fun k => (uploadToAiwaveriderBody cb (times k) (perform k)).1) times).result =
      (uploadToAiwaveriderBody cb (times 0) (perform 0)).1 ∧
    (∀ e, perform 0 = Except.error e →
      (retryAsyncDecoratedCall AIWAVERIDER_RETRY_CONFIG "aiwaverider"
        "_upload_to_aiwaverider_drive_async"
        (fun k => (uploadToAiwaveriderBody cb (times k) (perform k)).1) times).result =
        Except.ok false) := by
  obtain ⟨b, hb⟩ := uploadToAiwaveriderBody_ok cb (times 0) (perform 0)
  have heq : retryAsyncDecoratedCall AIWAVERIDER_RETRY_CONFIG "aiwaverider"
      "_upload_to_aiwaverider_drive_async"
      (fun k => (uploadToAiwaveriderBody cb (times k) (perform k)).1) times =
      ⟨Except.ok b, onSuccess { defaultCircuitBreaker with
        total_requests := defaultCircuitBreaker.total_requests + 1 }, 1, 0⟩ := by
    rw [retryAsyncDecoratedCall_eq]
    exact retryAsyncRun_ok_first AIWAVERIDER_RETRY_CONFIG
      "_upload_to_aiwaverider_drive_async"
      (fun k => (uploadToAiwaveriderBody cb (times k) (perform k)).1) times
      defaultCircuitBreaker (by decide) b hb
  refine ⟨by rw [heq], by rw [heq], by rw [heq]; exact hb.symm, ?_⟩
  intro e he
  rw [heq]
  rw [he] at hb
  have h2 := uploadToAiwaveriderBody_error cb (times 0) e
  rw [hb] at h2
  exact h2

/-- C10, witness: a concrete failing upload — the decorated call makes one
invocation and reports plain `False`. -/
theorem c10_swallowed_failure_no_retries_witness :
    (retryAsyncDecoratedCall AIWAVERIDER_RETRY_CONFIG "aiwaverider"
      "_upload_to_aiwaverider_drive_async"
      (fun _ => (uploadToAiwaveriderBody defaultCircuitBreaker 0
        (Except.error ⟨"Exception", "upload failed"⟩)).1) (fun _ => 0)).invoked = 1 ∧
    (retryAsyncDecoratedCall AIWAVERIDER_RETRY_CONFIG "aiwaverider"
      "_upload_to_aiwaverider_drive_async"
      (fun _ => (uploadToAiwaveriderBody defaultCircuitBreaker 0
        (Except.error ⟨"Exception", "upload failed"⟩)).1) (fun _ => 0)).result =
      Except.ok false := by
  have h := c10_swallowed_failure_no_retries defaultCircuitBreaker (fun _ => 0)
    (fun _ => Except.error ⟨"Exception", "upload failed"⟩)
  exact ⟨h.1, h.2.2.2 ⟨"Exception", "upload failed"⟩ rfl⟩

end AutoUpload
